import Mathlib

/-!
Shallow embedding of the ajiponzu-utility-launcher front-end.

The repository is the presentation layer of a Tauri desktop launcher: React
components whose handlers call an unseen native backend through `invoke`.
We embed each handler as a pure Lean function on an explicit state, with the
backend outcome of every `invoke` passed in as an `Except` parameter and the
observable side effects (console output, alerts, backend calls) returned as
data.  Fields that the UI code defends against with `|| default` fallbacks
(`arguments`, `description`, `delay`, `prevent_duplicate`, `auto_start`) are
embedded as `Option`, matching the JavaScript runtime where a record read
from the backend may lack them; the defaults used coincide with the falsy
values of their types, so `Option.getD` is extensionally the `||` coalescing
the source performs.
-/

namespace Launcher

/-- A registered application record, from the `RegisteredApp` interface in
`src/types` (the variant with `auto_start`).  `id`, `name`, `path` are
required strings; the remaining fields may be absent at runtime, which the
UI code guards with `||` fallbacks, so they are embedded as `Option`. -/
structure RegisteredApp where
  id : String
  name : String
  path : String
  arguments : Option String
  description : Option String
  delay : Option Int
  prevent_duplicate : Option Bool
  auto_start : Option Bool
deriving DecidableEq

/-- The add/edit form state of the Settings component (`formData`). -/
structure FormData where
  name : String
  path : String
  arguments : String
  description : String
  delay : Int
  preventDuplicate : Bool
  autoStart : Bool
deriving DecidableEq

/-- A backend invocation made through Tauri `invoke`, with exactly the
payload fields the UI passes. -/
inductive BackendCall where
  | getRegisteredApps
  | addRegisteredApp (name path arguments description : String)
      (delay : Int) (preventDuplicate autoStart : Bool)
  | updateRegisteredApp (id name path arguments description : String)
      (delay : Int) (preventDuplicate autoStart : Bool)
  | removeRegisteredApp (id : String)
  | launchApplication (appId path : String) (arguments : Option String)
  | stopApplication (appId : String)
  | openFileDialog
  | hideWindow
deriving DecidableEq

/-- An observable UI side effect: console output or a blocking alert. -/
inductive Effect where
  | consoleLog (msg : String)
  | consoleError (msg : String)
  | alert (msg : String)
deriving DecidableEq

/-- `true` on the effects that surface a failure to a human:
`console.error` output and `alert` dialogs. -/
def Effect.isFailureMsg : Effect → Bool
  | Effect.consoleError _ => true
  | Effect.alert _ => true
  | Effect.consoleLog _ => false

/-- An effect list surfaces a failure when it contains at least one
human-readable failure message. -/
def hasFailureMsg (effs : List Effect) : Bool :=
  effs.any Effect.isFailureMsg

/-- The React state of the Settings component. -/
structure SettingsState where
  registeredApps : List RegisteredApp
  isLoading : Bool
  showAddForm : Bool
  editingApp : Option RegisteredApp
  formData : FormData
deriving DecidableEq

namespace Settings

/-- The initial / reset form values used by `useState` and `resetForm`. -/
def defaultFormData : FormData :=
  { name := ""
    path := ""
    arguments := ""
    description := ""
    delay := 0
    preventDuplicate := false
    autoStart := false }

/-- `loadRegisteredApps` in Settings.tsx: sets `isLoading`, fetches the app
list, stores it on success, logs on failure, and clears `isLoading` in the
`finally` block either way. -/
def loadRegisteredApps (st : SettingsState)
    (result : Except String (List RegisteredApp)) :
    SettingsState × List Effect :=
  match result with
  | Except.ok apps =>
      ({ st with registeredApps := apps, isLoading := false }, [])
  | Except.error e =>
      ({ st with isLoading := false },
       [Effect.consoleError ("Failed to load registered apps: " ++ e)])

/-- `resetForm` in Settings.tsx: restores the default form values, hides the
form and clears the app being edited. -/
def resetForm (st : SettingsState) : SettingsState :=
  { st with
    formData := defaultFormData
    showAddForm := false
    editingApp := none }

/-- `handleAdd` in Settings.tsx: logs, resets the form, then shows it. -/
def handleAdd (st : SettingsState) : SettingsState × List Effect :=
  ({ resetForm st with showAddForm := true },
   [Effect.consoleLog ("Add button clicked")])

/-- `handleEdit` in Settings.tsx: copies the record into the form, with `||`
fallbacks for the optional fields, and enters edit mode. -/
def handleEdit (st : SettingsState) (app : RegisteredApp) : SettingsState :=
  { st with
    formData :=
      { name := app.name
        path := app.path
        arguments := app.arguments.getD ""
        description := app.description.getD ""
        delay := app.delay.getD 0
        preventDuplicate := app.prevent_duplicate.getD false
        autoStart := app.auto_start.getD false }
    editingApp := some app
    showAddForm := true }

/-- The backend call `handleSave` makes once validation has passed:
`update_registered_app` with the edited record's id when `editingApp` is
set, `add_registered_app` otherwise, in both cases with every mutable field
taken from the current form values. -/
def saveCall (st : SettingsState) : BackendCall :=
  match st.editingApp with
  | some app =>
      BackendCall.updateRegisteredApp app.id st.formData.name st.formData.path
        st.formData.arguments st.formData.description st.formData.delay
        st.formData.preventDuplicate st.formData.autoStart
  | none =>
      BackendCall.addRegisteredApp st.formData.name st.formData.path
        st.formData.arguments st.formData.description st.formData.delay
        st.formData.preventDuplicate st.formData.autoStart

/-- `handleSave` in Settings.tsx.  Empty name or path (JS falsiness on a
string is emptiness) alerts and returns without invoking the backend.
Otherwise the add/update call is issued; on success the form is reset and
the list reloaded (with `loadResult` the outcome of that reload), on failure
the state is left alone and the failure is logged and alerted. -/
def handleSave (st : SettingsState) (saveResult : Except String Unit)
    (loadResult : Except String (List RegisteredApp)) :
    SettingsState × Option BackendCall × List Effect :=
  if st.formData.name = "" ∨ st.formData.path = "" then
    (st, none, [Effect.alert ("名前とパスは必須です")])
  else
    match saveResult with
    | Except.ok _ =>
        let pair := loadRegisteredApps (resetForm st) loadResult
        (pair.1, some (saveCall st), pair.2)
    | Except.error e =>
        (st, some (saveCall st),
         [Effect.consoleError ("Failed to save app: " ++ e),
          Effect.alert ("保存に失敗しました")])

/-- `handleDelete` in Settings.tsx: after a confirm dialog, invokes
`remove_registered_app` and reloads; on failure logs and alerts. -/
def handleDelete (st : SettingsState) (app : RegisteredApp)
    (confirmed : Bool) (deleteResult : Except String Unit)
    (loadResult : Except String (List RegisteredApp)) :
    SettingsState × Option BackendCall × List Effect :=
  if confirmed then
    match deleteResult with
    | Except.ok _ =>
        let pair := loadRegisteredApps st loadResult
        (pair.1, some (BackendCall.removeRegisteredApp app.id), pair.2)
    | Except.error e =>
        (st, some (BackendCall.removeRegisteredApp app.id),
         [Effect.consoleError ("Failed to delete app: " ++ e),
          Effect.alert ("削除に失敗しました")])
  else
    (st, none, [])

/-- `selectFile` in Settings.tsx: invokes `open_file_dialog`; `if (path)`
only stores a truthy result, so `null` and the empty string both leave the
form untouched; a thrown failure is logged. -/
def selectFile (st : SettingsState)
    (dialogResult : Except String (Option String)) :
    SettingsState × List Effect :=
  match dialogResult with
  | Except.error e =>
      (st, [Effect.consoleError ("Failed to select file: " ++ e)])
  | Except.ok none => (st, [])
  | Except.ok (some p) =>
      if p = "" then (st, [])
      else ({ st with formData := { st.formData with path := p } }, [])

end Settings

namespace MainApp

/-- `loadRegisteredApps` in the main App component (`src/unnamed/part_003`):
replaces the registered list on success, logs and keeps the previous list on
failure. -/
def loadRegisteredApps (result : Except String (List RegisteredApp))
    (prev : List RegisteredApp) : List RegisteredApp × List Effect :=
  match result with
  | Except.ok apps => (apps, [])
  | Except.error e =>
      (prev, [Effect.consoleError ("Failed to load registered apps: " ++ e)])

/-- `loadRunningApps` in `src/unnamed/part_003`: fetches the registered
list and rebuilds the `runningApps` set as the ids of the apps whose
`auto_start` flag is truthy; the previous set is only kept on failure. -/
def loadRunningApps (result : Except String (List RegisteredApp))
    (prev : Finset String) : Finset String × List Effect :=
  match result with
  | Except.ok apps =>
      (((apps.filter (fun a => a.auto_start.getD false)).map
          (fun a => a.id)).toFinset, [])
  | Except.error e =>
      (prev, [Effect.consoleError ("Failed to load running apps: " ++ e)])

/-- `handleLaunchApp` in `src/unnamed/part_003`: invokes
`launch_application` with the record's id, path and arguments; on success
inserts the id into `runningApps`, on failure logs and alerts leaving the
set alone. -/
def handleLaunchApp (app : RegisteredApp) (running : Finset String)
    (result : Except String Unit) :
    BackendCall × Finset String × List Effect :=
  (BackendCall.launchApplication app.id app.path app.arguments,
   match result with
   | Except.ok _ => (insert app.id running, [])
   | Except.error e =>
       (running,
        [Effect.consoleError ("Failed to launch application: " ++ e),
         Effect.alert ("アプリケーションの起動に失敗しました: " ++ e)]))

/-- `handleStopApp` in `src/unnamed/part_003`: logs, invokes
`stop_application` with the record's id; on success deletes the id from
`runningApps` and logs, on failure logs and alerts leaving the set alone. -/
def handleStopApp (app : RegisteredApp) (running : Finset String)
    (result : Except String Unit) :
    BackendCall × Finset String × List Effect :=
  (BackendCall.stopApplication app.id,
   match result with
   | Except.ok _ =>
       (running.erase app.id,
        [Effect.consoleLog
           ("Stopping app: " ++ app.name ++ " (ID: " ++ app.id ++ ")"),
         Effect.consoleLog ("Successfully stopped " ++ app.name)])
   | Except.error e =>
       (running,
        [Effect.consoleLog
           ("Stopping app: " ++ app.name ++ " (ID: " ++ app.id ++ ")"),
         Effect.consoleError ("Failed to stop application: " ++ e),
         Effect.alert ("アプリケーションの停止に失敗しました: " ++ e)]))

/-- `hideWindow` (both App variants and `src/unnamed/part_002`): invokes
`hide_window` and logs a failure. -/
def hideWindow (result : Except String Unit) : List Effect :=
  match result with
  | Except.ok _ => []
  | Except.error e =>
      [Effect.consoleError ("Failed to hide window: " ++ e)]

end MainApp

namespace AppTsx

/-- `handleLaunchApp` in `src/src/App.tsx` (the variant without a running
set): invokes `launch_application` with the record's id, path and
arguments, logging a failure. -/
def handleLaunchApp (app : RegisteredApp) (result : Except String Unit) :
    BackendCall × List Effect :=
  (BackendCall.launchApplication app.id app.path app.arguments,
   match result with
   | Except.ok _ => []
   | Except.error e =>
       [Effect.consoleError ("Failed to launch application: " ++ e)])

end AppTsx

namespace Supervisor

/-- A running process tracked by the backend Launch Supervisor, keyed by the
app id; the process handle is abstracted to a number. -/
structure RunningInstance where
  appId : String
  handle : Nat
deriving DecidableEq

/-- Outcome of a Supervisor launch request: success carries the new
instance table and whether a process was actually spawned. -/
inductive LaunchOutcome where
  | ok (instances : List RunningInstance) (spawned : Bool)
  | notFound
  | launchError
deriving DecidableEq

/-- Modelled from the spec: the backend Launch Supervisor is not part of the
supplied source (only the UI invoking it is), so its `launch` operation is
modelled from §4.3 of the specification: look up the record by id (NotFound
when absent); when `prevent_duplicate` is true and a RunningInstance already
exists for the id, return success without spawning a second process (the
idempotent duplicate-prevention no-op); otherwise spawn — recording a fresh
RunningInstance — or fail with LaunchError when the spawn fails. -/
def launch (reg : List RegisteredApp) (insts : List RunningInstance)
    (id : String) (newHandle : Nat) (spawnOk : Bool) : LaunchOutcome :=
  match reg.find? (fun a => a.id == id) with
  | none => LaunchOutcome.notFound
  | some app =>
      if app.prevent_duplicate.getD false &&
          insts.any (fun i => i.appId == id) then
        LaunchOutcome.ok insts false
      else if spawnOk then
        LaunchOutcome.ok ({ appId := id, handle := newHandle } :: insts) true
      else
        LaunchOutcome.launchError

end Supervisor

/-! Concrete sample data used by the witness theorems. -/

/-- A concrete valid form. -/
def sampleForm : FormData :=
  { name := "Notepad"
    path := "C:/Windows/notepad.exe"
    arguments := "-a"
    description := "editor"
    delay := 2
    preventDuplicate := true
    autoStart := false }

/-- A concrete registered app with every optional field present. -/
def sampleApp : RegisteredApp :=
  { id := "app1"
    name := "Notepad"
    path := "C:/Windows/notepad.exe"
    arguments := some ("-a")
    description := some ("editor")
    delay := some 0
    prevent_duplicate := some true
    auto_start := some false }

/-- A concrete registered app with every optional field absent. -/
def bareApp : RegisteredApp :=
  { id := "bare"
    name := "Bare"
    path := "C:/bare.exe"
    arguments := none
    description := none
    delay := none
    prevent_duplicate := none
    auto_start := none }

/-- A Settings state whose form has an empty name but a non-empty path. -/
def emptyNameState : SettingsState :=
  { registeredApps := []
    isLoading := false
    showAddForm := true
    editingApp := none
    formData := { Settings.defaultFormData with path := "C:/x.exe" } }

/-- A Settings state in add mode with a fully valid form. -/
def validAddState : SettingsState :=
  { registeredApps := []
    isLoading := false
    showAddForm := true
    editingApp := none
    formData := sampleForm }

/-- A Settings state editing `sampleApp` with a fully valid form. -/
def validEditState : SettingsState :=
  { validAddState with editingApp := some sampleApp }

/-- A Settings state whose form already holds a path. -/
def pathFullState : SettingsState :=
  { registeredApps := []
    isLoading := false
    showAddForm := true
    editingApp := none
    formData := { Settings.defaultFormData with path := "C:/old.exe" } }

/-- A concrete running-set with one unrelated id. -/
def runSet0 : Finset String := {"other"}

/-- Coalescing an optional boolean with `false` yields `true` exactly when
the field is present and `true`. -/
theorem getD_false_iff (o : Option Bool) : o.getD false = true ↔ o = some true := by
  cases o <;> simp

/-! Claim theorems. -/

/-- Claim C1: when the form's name or path is empty, `handleSave` makes no
backend call and leaves the component state — registered list and form state
alike — unchanged; when both are non-empty, the add/update invocation is
issued. -/
theorem C1_handleSave_validation (st : SettingsState)
    (saveR : Except String Unit)
    (loadR : Except String (List RegisteredApp)) :
    ((st.formData.name = "" ∨ st.formData.path = "") →
      (Settings.handleSave st saveR loadR).1 = st ∧
      (Settings.handleSave st saveR loadR).2.1 = none) ∧
    (st.formData.name ≠ "" → st.formData.path ≠ "" →
      (Settings.handleSave st saveR loadR).2.1 =
        some (Settings.saveCall st)) := by
  constructor
  · intro h
    unfold Settings.handleSave
    rw [if_pos h]
    exact ⟨rfl, rfl⟩
  · intro h1 h2
    have hcond : ¬ (st.formData.name = "" ∨ st.formData.path = "") := by
      rintro (h | h)
      · exact h1 h
      · exact h2 h
    unfold Settings.handleSave
    rw [if_neg hcond]
    cases saveR <;> rfl

/-- Claim C1 witness: on a concrete empty-name state the save is a no-op
with no backend call; on a concrete valid state the call is issued. -/
theorem C1_handleSave_validation_witness :
    ((Settings.handleSave emptyNameState (Except.ok ()) (Except.ok [])).1 =
        emptyNameState ∧
      (Settings.handleSave emptyNameState (Except.ok ()) (Except.ok [])).2.1 =
        none) ∧
    (Settings.handleSave validAddState (Except.ok ()) (Except.ok [])).2.1 =
      some (Settings.saveCall validAddState) := by
  have h1 :=
    (C1_handleSave_validation emptyNameState (Except.ok ()) (Except.ok [])).1
      (Or.inl rfl)
  have h2 :=
    (C1_handleSave_validation validAddState (Except.ok ()) (Except.ok [])).2
      (by decide) (by decide)
  exact ⟨h1, h2⟩

/-- Claim C4: editing an app and saving with valid form fields issues
`update_registered_app` with the edited record's original id and every
mutable field taken from the current form values. -/
theorem C4_update_preserves_id (st : SettingsState) (app : RegisteredApp)
    (saveR : Except String Unit)
    (loadR : Except String (List RegisteredApp))
    (hedit : st.editingApp = some app)
    (hname : st.formData.name ≠ "") (hpath : st.formData.path ≠ "") :
    (Settings.handleSave st saveR loadR).2.1 =
      some (BackendCall.updateRegisteredApp app.id
        st.formData.name st.formData.path st.formData.arguments
        st.formData.description st.formData.delay
        st.formData.preventDuplicate st.formData.autoStart) := by
  have hcond : ¬ (st.formData.name = "" ∨ st.formData.path = "") := by
    rintro (h | h)
    · exact hname h
    · exact hpath h
  unfold Settings.handleSave
  rw [if_neg hcond]
  cases saveR <;> simp [Settings.saveCall, hedit]

/-- Claim C4 witness: saving the concrete edit state updates `sampleApp`
under its original id with the concrete form fields. -/
theorem C4_update_preserves_id_witness :
    (Settings.handleSave validEditState (Except.ok ()) (Except.ok [])).2.1 =
      some (BackendCall.updateRegisteredApp ("app1") ("Notepad")
        ("C:/Windows/notepad.exe") ("-a") ("editor") 2 true false) := by
  have h :=
    C4_update_preserves_id validEditState sampleApp (Except.ok ())
      (Except.ok []) rfl (by decide) (by decide)
  exact h

/-- Claim C5: both UI launch handlers invoke `launch_application` with
exactly the record's id as appId, the record's path, and the record's
arguments, and nothing else. -/
theorem C5_launch_payload (app : RegisteredApp) (running : Finset String)
    (r1 r2 : Except String Unit) :
    (MainApp.handleLaunchApp app running r1).1 =
      BackendCall.launchApplication app.id app.path app.arguments ∧
    (AppTsx.handleLaunchApp app r2).1 =
      BackendCall.launchApplication app.id app.path app.arguments :=
  ⟨rfl, rfl⟩

/-- Claim C3: on a successful fetch, `loadRunningApps` rebuilds the
`runningApps` set as exactly the ids of the records whose `auto_start` flag
is true, independently of the previous (process) state. -/
theorem C3_loadRunningApps_autostart (apps : List RegisteredApp)
    (prev prev2 : Finset String) (x : String) :
    (x ∈ (MainApp.loadRunningApps (Except.ok apps) prev).1 ↔
      ∃ a ∈ apps, a.id = x ∧ a.auto_start = some true) ∧
    (MainApp.loadRunningApps (Except.ok apps) prev).1 =
      (MainApp.loadRunningApps (Except.ok apps) prev2).1 := by
  constructor
  · simp only [MainApp.loadRunningApps, List.mem_toFinset, List.mem_map,
      List.mem_filter, getD_false_iff]
    constructor
    · rintro ⟨a, ⟨ha, hauto⟩, hid⟩
      exact ⟨a, ha, hid, hauto⟩
    · rintro ⟨a, ha, hid, hauto⟩
      exact ⟨a, ⟨ha, hauto⟩, hid⟩
  · rfl

/-- Claim C6: a successful launch inserts exactly the app's id into the
running set and a successful stop removes exactly it, in both cases leaving
the membership of every other id unchanged; a failed invocation leaves the
set untouched. -/
theorem C6_runningApps_frame (app : RegisteredApp) (running : Finset String)
    (e : String) :
    (app.id ∈ (MainApp.handleLaunchApp app running (Except.ok ())).2.1 ∧
      ∀ x, x ≠ app.id →
        (x ∈ (MainApp.handleLaunchApp app running (Except.ok ())).2.1 ↔
          x ∈ running)) ∧
    (app.id ∉ (MainApp.handleStopApp app running (Except.ok ())).2.1 ∧
      ∀ x, x ≠ app.id →
        (x ∈ (MainApp.handleStopApp app running (Except.ok ())).2.1 ↔
          x ∈ running)) ∧
    (MainApp.handleLaunchApp app running (Except.error e)).2.1 = running ∧
    (MainApp.handleStopApp app running (Except.error e)).2.1 = running := by
  refine ⟨⟨?_, ?_⟩, ⟨?_, ?_⟩, rfl, rfl⟩
  · simp [MainApp.handleLaunchApp]
  · intro x hx
    simp [MainApp.handleLaunchApp, hx]
  · simp [MainApp.handleStopApp]
  · intro x hx
    simp [MainApp.handleStopApp, hx]

/-- Claim C6 witness: the frame conditions evaluated at `sampleApp`, the
concrete set containing only the unrelated id, and a concrete error. -/
theorem C6_runningApps_frame_witness :
    sampleApp.id ∈
      (MainApp.handleLaunchApp sampleApp runSet0 (Except.ok ())).2.1 ∧
    ("other" ∈ (MainApp.handleLaunchApp sampleApp runSet0 (Except.ok ())).2.1 ↔
      "other" ∈ runSet0) ∧
    sampleApp.id ∉
      (MainApp.handleStopApp sampleApp runSet0 (Except.ok ())).2.1 ∧
    ("other" ∈ (MainApp.handleStopApp sampleApp runSet0 (Except.ok ())).2.1 ↔
      "other" ∈ runSet0) ∧
    (MainApp.handleLaunchApp sampleApp runSet0 (Except.error ("boom"))).2.1 =
      runSet0 ∧
    (MainApp.handleStopApp sampleApp runSet0 (Except.error ("boom"))).2.1 =
      runSet0 := by
  obtain ⟨⟨h1, h2⟩, ⟨h3, h4⟩, h5, h6⟩ :=
    C6_runningApps_frame sampleApp runSet0 ("boom")
  exact ⟨h1, h2 ("other") (by decide), h3, h4 ("other") (by decide), h5, h6⟩

/-- Claim C7: every UI handler that invokes a backend operation is total
over backend outcomes, and on every failing outcome it surfaces a
human-readable failure message (console.error output or an alert) rather
than letting the failure escape. -/
theorem C7_failures_surfaced (st : SettingsState) (app : RegisteredApp)
    (running : Finset String) (prev : List RegisteredApp)
    (prevRun : Finset String) (e : String)
    (loadR : Except String (List RegisteredApp)) :
    hasFailureMsg (Settings.loadRegisteredApps st (Except.error e)).2 = true ∧
    hasFailureMsg (Settings.handleSave st (Except.error e) loadR).2.2 = true ∧
    hasFailureMsg
      (Settings.handleDelete st app true (Except.error e) loadR).2.2 = true ∧
    hasFailureMsg (Settings.selectFile st (Except.error e)).2 = true ∧
    hasFailureMsg (MainApp.loadRegisteredApps (Except.error e) prev).2 = true ∧
    hasFailureMsg (MainApp.loadRunningApps (Except.error e) prevRun).2 = true ∧
    hasFailureMsg
      (MainApp.handleLaunchApp app running (Except.error e)).2.2 = true ∧
    hasFailureMsg
      (MainApp.handleStopApp app running (Except.error e)).2.2 = true ∧
    hasFailureMsg (AppTsx.handleLaunchApp app (Except.error e)).2 = true ∧
    hasFailureMsg (MainApp.hideWindow (Except.error e)) = true := by
  refine ⟨rfl, ?_, rfl, rfl, rfl, rfl, rfl, rfl, rfl, rfl⟩
  by_cases h : st.formData.name = "" ∨ st.formData.path = ""
  · unfold Settings.handleSave
    rw [if_pos h]
    rfl
  · unfold Settings.handleSave
    rw [if_neg h]
    rfl

/-- Claim C8 counterexample: `open_file_dialog` returning the empty string —
a non-null string — does not set the form's path to it: on a concrete state
whose path is "C:/old.exe" the path stays "C:/old.exe", because the source
guards the assignment with JS truthiness (`if (path)`), which is false for
the empty string. -/
theorem C8_counterexample :
    (Settings.selectFile pathFullState (Except.ok (some ("")))).1.formData.path =
      "C:/old.exe" ∧
    ¬ ((Settings.selectFile pathFullState
        (Except.ok (some ("")))).1.formData.path = "") := by
  constructor
  · rfl
  · decide

/-- Claim C8 as amended: when `open_file_dialog` returns null or the empty
string, `selectFile` leaves the entire form state unchanged; when it
returns a non-empty string, it sets only the path field to that string and
leaves every other form field and the rest of the component state
unchanged. -/
theorem C8_selectFile_frame (st : SettingsState) (p : String)
    (hp : p ≠ "") :
    (Settings.selectFile st (Except.ok none)).1 = st ∧
    (Settings.selectFile st (Except.ok (some ("")))).1 = st ∧
    (Settings.selectFile st (Except.ok (some p))).1 =
      { st with formData := { st.formData with path := p } } := by
  refine ⟨rfl, rfl, ?_⟩
  simp [Settings.selectFile, hp]

/-- Claim C8 witness: picking a concrete non-empty path on the concrete
state rewrites exactly the path field. -/
theorem C8_selectFile_frame_witness :
    (Settings.selectFile pathFullState (Except.ok (some ("C:/new.exe")))).1 =
      { pathFullState with
        formData := { pathFullState.formData with path := "C:/new.exe" } } :=
  (C8_selectFile_frame pathFullState ("C:/new.exe") (by decide)).2.2

/-- Claim C9: after `handleAdd` the form holds the canonical add state —
every field at its default, no app being edited, form visible — so a
subsequent valid save (with whatever the user then types into the form)
necessarily issues `add_registered_app`, never the update call. -/
theorem C9_handleAdd_canonical (st : SettingsState) :
    (Settings.handleAdd st).1.formData.name = "" ∧
    (Settings.handleAdd st).1.formData.path = "" ∧
    (Settings.handleAdd st).1.formData.arguments = "" ∧
    (Settings.handleAdd st).1.formData.description = "" ∧
    (Settings.handleAdd st).1.formData.delay = 0 ∧
    (Settings.handleAdd st).1.formData.preventDuplicate = false ∧
    (Settings.handleAdd st).1.formData.autoStart = false ∧
    (Settings.handleAdd st).1.editingApp = none ∧
    (Settings.handleAdd st).1.showAddForm = true ∧
    (∀ (f : FormData) (saveR : Except String Unit)
        (loadR : Except String (List RegisteredApp)),
      f.name ≠ "" → f.path ≠ "" →
      (Settings.handleSave { (Settings.handleAdd st).1 with formData := f }
          saveR loadR).2.1 =
        some (BackendCall.addRegisteredApp f.name f.path f.arguments
          f.description f.delay f.preventDuplicate f.autoStart)) := by
  refine ⟨rfl, rfl, rfl, rfl, rfl, rfl, rfl, rfl, rfl, ?_⟩
  intro f saveR loadR h1 h2
  have hcond : ¬ (f.name = "" ∨ f.path = "") := by
    rintro (h | h)
    · exact h1 h
    · exact h2 h
  unfold Settings.handleSave
  rw [if_neg hcond]
  cases saveR <;> rfl

/-- Claim C9 witness: applied to the concrete editing state, `handleAdd`
clears the edited app, and a subsequent save with the concrete valid form
issues the add call. -/
theorem C9_handleAdd_canonical_witness :
    (Settings.handleAdd validEditState).1.editingApp = none ∧
    (Settings.handleSave
        { (Settings.handleAdd validEditState).1 with formData := sampleForm }
        (Except.ok ()) (Except.ok [])).2.1 =
      some (BackendCall.addRegisteredApp ("Notepad") ("C:/Windows/notepad.exe")
        ("-a") ("editor") 2 true false) := by
  obtain ⟨_, _, _, _, _, _, _, h8, _, h10⟩ :=
    C9_handleAdd_canonical validEditState
  exact ⟨h8, h10 sampleForm (Except.ok ()) (Except.ok []) (by decide) (by decide)⟩

/-- Claim C10: `handleEdit` fills the form from the record, substituting ""
for a missing arguments or description, 0 for a missing delay, and false for
a missing prevent_duplicate or auto_start, while present values carry over;
it also records the app as being edited and shows the form. -/
theorem C10_handleEdit_defaults (st : SettingsState) (app : RegisteredApp) :
    (Settings.handleEdit st app).formData.name = app.name ∧
    (Settings.handleEdit st app).formData.path = app.path ∧
    (app.arguments = none →
      (Settings.handleEdit st app).formData.arguments = "") ∧
    (∀ s, app.arguments = some s →
      (Settings.handleEdit st app).formData.arguments = s) ∧
    (app.description = none →
      (Settings.handleEdit st app).formData.description = "") ∧
    (∀ s, app.description = some s →
      (Settings.handleEdit st app).formData.description = s) ∧
    (app.delay = none → (Settings.handleEdit st app).formData.delay = 0) ∧
    (∀ d, app.delay = some d →
      (Settings.handleEdit st app).formData.delay = d) ∧
    (app.prevent_duplicate = none →
      (Settings.handleEdit st app).formData.preventDuplicate = false) ∧
    (∀ b, app.prevent_duplicate = some b →
      (Settings.handleEdit st app).formData.preventDuplicate = b) ∧
    (app.auto_start = none →
      (Settings.handleEdit st app).formData.autoStart = false) ∧
    (∀ b, app.auto_start = some b →
      (Settings.handleEdit st app).formData.autoStart = b) ∧
    (Settings.handleEdit st app).editingApp = some app ∧
    (Settings.handleEdit st app).showAddForm = true := by
  refine ⟨rfl, rfl, ?_, ?_, ?_, ?_, ?_, ?_, ?_, ?_, ?_, ?_, rfl, rfl⟩ <;>
    first
      | (intro h; simp [Settings.handleEdit, h])
      | (intro v h; simp [Settings.handleEdit, h])

/-- Claim C10 witness: the defaults at the all-missing record and a carried
value at the all-present record. -/
theorem C10_handleEdit_defaults_witness :
    (Settings.handleEdit validAddState bareApp).formData.arguments = "" ∧
    (Settings.handleEdit validAddState bareApp).formData.description = "" ∧
    (Settings.handleEdit validAddState bareApp).formData.delay = 0 ∧
    (Settings.handleEdit validAddState bareApp).formData.preventDuplicate =
      false ∧
    (Settings.handleEdit validAddState bareApp).formData.autoStart = false ∧
    (Settings.handleEdit validAddState sampleApp).formData.arguments = "-a" := by
  obtain ⟨_, _, h3, _, h5, _, h7, _, h9, _, h11, _, _, _⟩ :=
    C10_handleEdit_defaults validAddState bareApp
  obtain ⟨_, _, _, h4s, _⟩ := C10_handleEdit_defaults validAddState sampleApp
  exact ⟨h3 rfl, h5 rfl, h7 rfl, h9 rfl, h11 rfl, h4s ("-a") rfl⟩

/-- Claim C2 (Launch Supervisor modelled from the spec): for an app whose
prevent_duplicate flag is true and that is not yet running, two launch
requests in a row without an intervening stop leave exactly one
RunningInstance; the second request returns success without spawning a
second process — an idempotent no-op, not an error. -/
theorem C2_duplicate_prevention (reg : List RegisteredApp)
    (insts : List Supervisor.RunningInstance) (id : String)
    (app : RegisteredApp) (h1 h2 : Nat) (s2 : Bool)
    (hfind : reg.find? (fun a => a.id == id) = some app)
    (hdup : app.prevent_duplicate = some true)
    (hnone : ∀ i ∈ insts, i.appId ≠ id) :
    ∃ insts1,
      Supervisor.launch reg insts id h1 true =
        Supervisor.LaunchOutcome.ok insts1 true ∧
      Supervisor.launch reg insts1 id h2 s2 =
        Supervisor.LaunchOutcome.ok insts1 false ∧
      (insts1.filter (fun i => i.appId == id)).length = 1 := by
  have hany : insts.any (fun i => i.appId == id) = false := by
    rw [Bool.eq_false_iff]
    intro hcontra
    obtain ⟨i, hi, hbeq⟩ := List.any_eq_true.mp hcontra
    exact hnone i hi (by simpa using hbeq)
  have hfilter : insts.filter (fun i => i.appId == id) = [] := by
    rw [List.filter_eq_nil_iff]
    intro i hi
    simpa using hnone i hi
  refine ⟨{ appId := id, handle := h1 } :: insts, ?_, ?_, ?_⟩
  · simp [Supervisor.launch, hfind, hdup, hany]
  · simp [Supervisor.launch, hfind, hdup]
  · rw [List.filter_cons]
    simp [hfilter]

/-- Claim C2 witness: a concrete registry with `sampleApp` (whose
prevent_duplicate is true) and an empty instance table. -/
theorem C2_duplicate_prevention_witness :
    ∃ insts1,
      Supervisor.launch [sampleApp] [] ("app1") 0 true =
        Supervisor.LaunchOutcome.ok insts1 true ∧
      Supervisor.launch [sampleApp] insts1 ("app1") 1 true =
        Supervisor.LaunchOutcome.ok insts1 false ∧
      (insts1.filter (fun i => i.appId == "app1")).length = 1 := by
  refine C2_duplicate_prevention [sampleApp] [] ("app1") sampleApp 0 1 true
    (by decide) rfl ?_
  intro i hi
  exact absurd hi (List.not_mem_nil i)
